import Mathlib

/-!
Verification of the Voiltail multi-model synthesis pipeline.

Shallow embedding of the TypeScript sources:
  - the data model of src/types/ai.ts,
  - the similarity measures of lib/ai/embeddings-v1-openai.ts
    (calculateJaccardSimilarity, cosineSimilarity),
  - the alignment and synthesis logic of lib/ai/synthesis.ts
    (getAlignmentLevel, calculateAlignment, findDivergences,
    synthesizeResponses, synthesizeWithErrorHandling),
  - the result-processing of the synthesize endpoint route,
  - the transient result storage of lib/result-storage.ts,
  - the sequential-await streaming loop of the streaming endpoint.

JavaScript numbers are modelled as exact rationals where only orderings,
additions, multiplications and divisions of small quantities occur, and as
real numbers for the cosine-similarity computation, whose claim is about
real-arithmetic bounds involving square roots.  Network calls (embedding
service, GPT-4 synthesis) are modelled as oracle parameters.  JavaScript
exceptions are modelled with Option/Except results.
-/

set_option maxRecDepth 8000

namespace Voiltail

/-! ### Data model (src/types/ai.ts) -/

/-- ModelResponse of src/types/ai.ts.  The model field holds one of
"gemini", "openai", "claude". -/
structure ModelResponse where
  model : String
  content : String
  responseTime : ℕ
deriving DecidableEq

/-- AlignedPoint of src/types/ai.ts. -/
structure AlignedPoint where
  content : String
  models : List String
  strength : ℚ
deriving DecidableEq

/-- DivergentSection of src/types/ai.ts. -/
structure DivergentSection where
  topic : String
  content : String
  models : List String
  description : String
deriving DecidableEq

/-- The qualitative alignment band used throughout the synthesis module
(string literals high / moderate / low in the source). -/
inductive Level where
  | low
  | moderate
  | high
deriving DecidableEq

/-- Numeric rank of a band, for the ordering low < moderate < high. -/
def Level.rank : Level → ℕ
  | .low => 0
  | .moderate => 1
  | .high => 2

/-- AlignmentData of src/types/ai.ts. -/
structure AlignmentData where
  semantic : ℚ
  surface : ℚ
  gemini : Level
  chatgpt : Level
  claude : Level
  overallAlignment : Level
  description : String
  methodology : String
  alignedPoints : List AlignedPoint
deriving DecidableEq

/-- ConsensusAnalysis of src/types/ai.ts (the AnalysisResult of the spec). -/
structure ConsensusAnalysis where
  unifiedResponse : String
  alignment : AlignmentData
  alignedPoints : List AlignedPoint
  divergentSections : List DivergentSection
  originalResponses : List ModelResponse
deriving DecidableEq

/-! ### Tokenization shared by the similarity measures

The source tokenizes by lowercasing, replacing every character matching
the regex class [^\w\s] by a space, and splitting on runs of \s,
i.e. it lowercases, replaces every character that is neither a word
character nor whitespace by a space, and splits on whitespace runs.  The
resulting tokens are exactly the maximal runs of word characters of the
lowercased text.  We model the ASCII fragment: a word character is an
ASCII letter, an ASCII digit, or the underscore. -/

/-- JavaScript regex class \w, on the ASCII fragment. -/
def isWordChar (c : Char) : Bool := c.isAlphanum || c == '_'

/-- JavaScript regex class \s, on the ASCII fragment. -/
def isSpaceChar (c : Char) : Bool := c == ' ' || c == '\t' || c == '\n' || c == '\r'

/-- Maximal runs of characters satisfying p; the accumulator carries the
current run reversed.  Characters failing p separate runs and are
dropped, matching replace-then-split in the source. -/
def runsAux (p : Char → Bool) : List Char → List Char → List (List Char)
  | [], acc => if acc.isEmpty then [] else [acc.reverse]
  | c :: cs, acc =>
    if p c then runsAux p cs (c :: acc)
    else if acc.isEmpty then runsAux p cs []
    else acc.reverse :: runsAux p cs []

/-- The token list of the lowercase-replace-split chain above, with the
empty leading token (present in JavaScript when the text starts
with a separator) dropped; every consumer filters on a positive minimum
length, so the empty token never matters. -/
def jsWords (text : String) : List String :=
  (runsAux isWordChar (text.data.map Char.toLower) []).map List.asString

/-- Word set of one text in calculateJaccardSimilarity: tokens of length
greater than 2, deduplicated by the Set constructor. -/
def wordSetOf (text : String) : Finset String :=
  ((jsWords text).filter (fun w => w.length > 2)).toFinset

/-- Union of all word sets, new Set(wordSets.flatMap(set => [...set])). -/
def unionOfSets (wordSets : List (Finset String)) : Finset String :=
  wordSets.foldr (fun s a => s ∪ a) ∅

/-- calculateJaccardSimilarity of lib/ai/embeddings-v1-openai.ts.
On the empty text list the source spreads wordSets[0], which is
undefined, so a TypeError is thrown; we model the throw as none. -/
def calculateJaccardSimilarity (texts : List String) : Option ℚ :=
  match texts.map wordSetOf with
  | [] => none
  | s0 :: rest =>
    let inter := s0.filter (fun w => ∀ s ∈ s0 :: rest, w ∈ s)
    let union := unionOfSets (s0 :: rest)
    if 0 < union.card then some ((inter.card : ℚ) / (union.card : ℚ)) else some 0

/-! ### Cosine similarity (lib/ai/embeddings-v1-openai.ts)

The loop accumulates the dot product and the two squared norms over the
common index range; with equal lengths this is the elementwise fold
below.  Floating-point numbers are idealized as real numbers, since the
claim is about real-arithmetic bounds. -/

/-- The dot-product accumulation of the cosineSimilarity loop. -/
def dotList : List ℝ → List ℝ → ℝ
  | a :: as, b :: bs => a * b + dotList as bs
  | _, _ => 0

/-- The squared-norm accumulation of the cosineSimilarity loop. -/
def sumsq (l : List ℝ) : ℝ := (l.map (fun x => x * x)).sum

open Classical in
/-- cosineSimilarity of lib/ai/embeddings-v1-openai.ts.  The length guard
throws, modelled as Except.error; the zero-norm guard returns 0. -/
noncomputable def cosineSimilarity (vecA vecB : List ℝ) : Except String ℝ :=
  if vecA.length ≠ vecB.length then .error "Vectors must have the same length"
  else
    let dotProduct := dotList vecA vecB
    let normA := Real.sqrt (sumsq vecA)
    let normB := Real.sqrt (sumsq vecB)
    if normA = 0 ∨ normB = 0 then .ok 0
    else .ok (dotProduct / (normA * normB))

/-! ### Alignment (lib/ai/synthesis.ts, calculateAlignment) -/

/-- getAlignmentLevel inside calculateAlignment: the combined score is
semanticScore * 0.7 + surfaceScore * 0.3, banded at 0.7 and 0.4. -/
def getAlignmentLevel (semanticScore surfaceScore : ℚ) : Level :=
  let combinedScore := semanticScore * 0.7 + surfaceScore * 0.3
  if combinedScore > 0.7 then .high
  else if combinedScore > 0.4 then .moderate
  else .low

/-- The strong-semantic-agreement aligned point pushed when semantic > 0.8. -/
def strongAgreementPoint (models : List String) (semantic : ℚ) : AlignedPoint :=
  { content := "Models show strong semantic agreement on core concepts"
    models := models
    strength := semantic }

/-- The terminology-consensus aligned point pushed when semantic > 0.6 and
surface > 0.2. -/
def terminologyPoint (models : List String) (semantic surface : ℚ) : AlignedPoint :=
  { content := "Models demonstrate consensus on key terminology and approach"
    models := models
    strength := (semantic + surface) / 2 }

/-- The alignedPoints construction of calculateAlignment: both pushes can
fire, in source order. -/
def alignedPointsFor (models : List String) (semantic surface : ℚ) : List AlignedPoint :=
  (if semantic > 0.8 then [strongAgreementPoint models semantic] else []) ++
  (if semantic > 0.6 ∧ surface > 0.2 then [terminologyPoint models semantic surface] else [])

/-- getDescription inside calculateAlignment. -/
def getDescription (semanticScore surfaceScore : ℚ) : String :=
  if semanticScore > 0.8 ∧ surfaceScore > 0.3 then
    "Strong semantic alignment with consistent expression"
  else if semanticScore > 0.8 ∧ surfaceScore ≤ 0.3 then
    "Strong semantic alignment with diverse expression styles"
  else if semanticScore > 0.6 then
    "Moderate semantic alignment with complementary perspectives"
  else if surfaceScore > 0.3 then
    "Similar language usage but potentially different underlying concepts"
  else
    "Diverse perspectives with low alignment - models offer complementary insights"

/-- The network-dependent parts of the pipeline, as oracles: semanticSim
models calculateSemanticSimilarity (embedding service round trip, with
its internal 0.5 fallback absorbed into the oracle), gpt4 models
createGPT4Synthesis applied to the responses and the
semantic/surface/overallAlignment triple (its internal fallback
concatenation absorbed as well). -/
structure Oracles where
  semanticSim : List String → ℚ
  gpt4 : List ModelResponse → ℚ × ℚ × Level → String

/-- calculateAlignment of lib/ai/synthesis.ts.  The only throwing
subcomputation is calculateJaccardSimilarity (on an empty response
list); its throw propagates as none. -/
def calculateAlignment (o : Oracles) (responses : List ModelResponse) : Option AlignmentData :=
  let contents := responses.map (fun r => r.content)
  let semantic := o.semanticSim contents
  match calculateJaccardSimilarity contents with
  | none => none
  | some surface =>
    some
      { semantic := semantic
        surface := surface
        gemini := getAlignmentLevel (semantic * 0.95) surface
        chatgpt := getAlignmentLevel (semantic * 1.05) surface
        claude := getAlignmentLevel semantic surface
        overallAlignment := getAlignmentLevel semantic surface
        description := getDescription semantic surface
        methodology := "semantic-similarity-v2"
        alignedPoints := alignedPointsFor (responses.map (fun r => r.model)) semantic surface }

/-! ### Divergence detection (lib/ai/synthesis.ts, findDivergences) -/

/-- The word list of the commonWords Set in isCommonWord (duplicates kept
as in the source; only membership matters). -/
def commonWords : List String := [
    "that", "this", "with", "from", "they", "been", "have", "their", "said", "each",
    "which", "them", "many", "some", "time", "very", "when", "much", "new", "way",
    "may", "say", "each", "use", "her", "all", "there", "how", "an", "each",
    "which", "she", "do", "get", "has", "him", "his", "had", "let", "put",
    "too", "old", "any", "after", "same", "tell", "does", "set", "three", "want",
    "air", "well", "also", "play", "small", "end", "put", "home", "read", "hand",
    "port", "large", "spell", "add", "even", "land", "here", "must", "big", "high",
    "such", "follow", "act", "why", "ask", "men", "change", "went", "light", "kind",
    "off", "need", "house", "picture", "try", "us", "again", "animal", "point", "mother",
    "world", "near", "build", "self", "earth", "father", "head", "stand", "own", "page",
    "should", "country", "found", "answer", "school", "grow", "study", "still", "learn", "plant",
    "cover", "food", "sun", "four", "between", "state", "keep", "eye", "never", "last",
    "let", "thought", "city", "tree", "cross", "farm", "hard", "start", "might", "story",
    "saw", "far", "sea", "draw", "left", "late", "run", "dont", "while", "press",
    "close", "night", "real", "life", "few", "north", "open", "seem", "together", "next",
    "white", "children", "begin", "got", "walk", "example", "ease", "paper", "group", "always",
    "music", "those", "both", "mark", "often", "letter", "until", "mile", "river", "car",
    "feet", "care", "second", "book", "carry", "took", "science", "eat", "room", "friend",
    "began", "idea", "fish", "mountain", "stop", "once", "base", "hear", "horse", "cut",
    "sure", "watch", "color", "face", "wood", "main", "enough", "plain", "girl", "usual",
    "young", "ready", "above", "ever", "red", "list", "though", "feel", "talk", "bird",
    "soon", "body", "dog", "family", "direct", "pose", "leave", "song", "measure", "door",
    "product", "black", "short", "numeral", "class", "wind", "question", "happen", "complete", "ship",
    "area", "half", "rock", "order", "fire", "south", "problem", "piece", "told", "knew",
    "pass", "since", "top", "whole", "king", "space", "heard", "best", "hour", "better",
    "during", "hundred", "five", "remember", "step", "early", "hold", "west", "ground", "interest",
    "reach", "fast", "verb", "sing", "listen", "six", "table", "travel", "less", "morning",
    "ten", "simple", "several", "vowel", "toward", "war", "lay", "against", "pattern", "slow",
    "center", "love", "person", "money", "serve", "appear", "road", "map", "rain", "rule",
    "govern", "pull", "cold", "notice", "voice", "unit", "power", "town", "fine", "certain",
    "fly", "fall", "lead", "cry", "dark", "machine", "note", "wait", "plan", "figure",
    "star", "box", "noun", "field", "rest", "correct", "able", "pound", "done", "beauty",
    "drive", "stood", "contain", "front", "teach", "week", "final", "gave", "green", "oh",
    "quick", "develop", "ocean", "warm", "free", "minute", "strong", "special", "mind", "behind",
    "clear", "tail", "produce", "fact", "street", "inch", "multiply", "nothing", "course", "stay",
    "wheel", "full", "force", "blue", "object", "decide", "surface", "deep", "moon", "island",
    "foot", "system", "busy", "test", "record", "boat", "common", "gold", "possible", "plane",
    "stead", "dry", "wonder", "laugh", "thousands", "ago", "ran", "check", "game", "shape",
    "equate", "hot", "miss", "brought", "heat", "snow", "tire", "bring", "yes", "distant",
    "fill", "east", "paint", "language", "among"]

/-- isCommonWord of lib/ai/synthesis.ts. -/
def isCommonWord (word : String) : Bool := commonWords.contains word

/-- Whether the pattern (second argument) occurs at the head of the
target (first argument): the character-level core of the startsWith and
includes string methods. -/
def leadsWith : List Char → List Char → Bool
  | _, [] => true
  | [], _ :: _ => false
  | t :: ts, p :: ps => p == t && leadsWith ts ps

/-- Whether the pattern (second argument) occurs anywhere in the target
(first argument): JavaScript String.prototype.includes. -/
def hasSub : List Char → List Char → Bool
  | [], pat => leadsWith [] pat
  | t :: ts, pat => leadsWith (t :: ts) pat || hasSub ts pat

/-- One frequency-count bump of wordCount.set(word, get(word) + 1);
insertion order of first occurrences is preserved, as in a Map. -/
def bumpCount : List (String × ℕ) → String → List (String × ℕ)
  | [], w => [(w, 1)]
  | (x, n) :: rest, w => if x = w then (x, n + 1) :: rest else (x, n) :: bumpCount rest w

/-- The frequency map built by extractKeywords, entries in first-occurrence
order (Map iteration order). -/
def countOccurrences (words : List String) : List (String × ℕ) :=
  words.foldl bumpCount []

/-- Insert an entry after every entry of count at least its own: one step
of a stable descending sort, matching the b-count-minus-a-count
comparator under the stable sort of modern JavaScript engines. -/
def insertAfterGE (p : String × ℕ) : List (String × ℕ) → List (String × ℕ)
  | [] => [p]
  | q :: qs => if q.2 ≥ p.2 then q :: insertAfterGE p qs else p :: q :: qs

/-- Stable descending sort by count. -/
def sortDescByCount (l : List (String × ℕ)) : List (String × ℕ) :=
  l.foldl (fun acc p => insertAfterGE p acc) []

/-- extractKeywords of lib/ai/synthesis.ts: tokens of length > 4 that are
not common words, the ten most frequent. -/
def extractKeywords (text : String) : List String :=
  let words := (jsWords text).filter (fun w => w.length > 4 && !(isCommonWord w))
  ((sortDescByCount (countOccurrences words)).take 10).map (fun p => p.1)

/-- Maximum of a rational list, the Math.max spread; only applied to
non-empty lists in the source. -/
def listMax : List ℚ → ℚ
  | [] => 0
  | x :: xs => xs.foldl max x

/-- Minimum of a rational list, the Math.min spread; only applied to
non-empty lists in the source. -/
def listMin : List ℚ → ℚ
  | [] => 0
  | x :: xs => xs.foldl min x

/-- calculateFormality of lib/ai/synthesis.ts.  Sentences are the pieces
of the split on [.!?] runs containing a non-whitespace character (the
trim-length filter); the per-sentence word count is the split on a
single space, i.e. space count plus one.  When no sentence survives,
the JavaScript code divides by zero and the NaN result poisons every
later comparison; that case is modelled as none. -/
def calculateFormality (text : String) : Option ℚ :=
  let sentences := (runsAux (fun c => !(c == '.' || c == '!' || c == '?')) text.data []).filter
    (fun r => r.any (fun c => !(isSpaceChar c)))
  if sentences.isEmpty then none
  else
    let avgSentenceLength : ℚ :=
      ((sentences.map (fun s => ((s.countP (fun c => c == ' ') : ℚ) + 1))).sum) / (sentences.length : ℚ)
    let technicalTerms := ["algorithm", "implementation", "methodology", "analysis", "framework", "approach"]
    let technicalCount : ℚ :=
      ((technicalTerms.filter (fun term => hasSub (text.data.map Char.toLower) term.data)).length : ℚ)
    some (min 1 (avgSentenceLength / 20 + technicalCount / 10))

/-- findDivergences of lib/ai/synthesis.ts.  The keyword-diversity branch
guards the unique-keyword count against zero because in that case the
JavaScript NaN ratio fails the < 0.3 comparison. -/
def findDivergences (responses : List ModelResponse) : List DivergentSection :=
  let lengths : List ℚ := responses.map (fun r => (r.content.length : ℚ))
  let avgLength := lengths.sum / (lengths.length : ℚ)
  let maxLength := listMax lengths
  let minLength := listMin lengths
  let d1 : List DivergentSection :=
    if maxLength > avgLength * 1.3 ∨ minLength < avgLength * 0.7 then
      [{ topic := "Response Detail Level"
         content := "Models provided different levels of detail in their responses"
         models := responses.map (fun r => r.model)
         description := "Models showed varying perspectives on implementation" }]
    else []
  let formalityScores := responses.map (fun r => calculateFormality r.content)
  let d2 : List DivergentSection :=
    if formalityScores.all Option.isSome then
      let scores := formalityScores.reduceOption
      if listMax scores - listMin scores > 0.2 then
        [{ topic := "Communication Style"
           content := "Models adopted different communication approaches"
           models := responses.map (fun r => r.model)
           description := "Varying levels of formality and technical depth in responses" }]
      else []
    else []
  let keywordSets := responses.map (fun r => extractKeywords r.content)
  let uniqueKeywords := keywordSets.flatten.dedup
  let sharedKeywords := uniqueKeywords.filter (fun k => keywordSets.all (fun s => s.contains k))
  let d3 : List DivergentSection :=
    if uniqueKeywords.length ≠ 0 ∧
        (sharedKeywords.length : ℚ) / (uniqueKeywords.length : ℚ) < 0.3 then
      [{ topic := "Conceptual Focus"
         content := "Models emphasized different aspects and concepts"
         models := responses.map (fun r => r.model)
         description := "Models showed varying perspectives on implementation" }]
    else []
  d1 ++ d2 ++ d3

/-! ### Synthesis (lib/ai/synthesis.ts) -/

/-- ASCII toUpperCase, used by the fallback synthesis text. -/
def asciiUpper (s : String) : String := (s.data.map Char.toUpper).asString

/-- The fallback ConsensusAnalysis built in the catch branch of
synthesizeWithErrorHandling. -/
def errorFallbackAnalysis (responses : List ModelResponse) : ConsensusAnalysis :=
  { unifiedResponse :=
      "Error during synthesis. Here are the individual responses:\n\n" ++
        String.intercalate "\n\n"
          (responses.map (fun r => "**" ++ asciiUpper r.model ++ "**: " ++ r.content))
    alignment :=
      { semantic := 0
        surface := 0
        gemini := .low
        chatgpt := .low
        claude := .low
        overallAlignment := .low
        description := "Synthesis error occurred"
        methodology := "semantic-similarity-v2"
        alignedPoints := [] }
    alignedPoints := []
    divergentSections :=
      [{ topic := "Synthesis Error"
         content := "Unable to synthesize responses due to technical error"
         models := responses.map (fun r => r.model)
         description := "Technical error prevented proper synthesis" }]
    originalResponses := responses }

/-- The aligned point of the single-response shortcut. -/
def singleModelPoint (r : ModelResponse) : AlignedPoint :=
  { content := "Single model response", models := [r.model], strength := 1 }

/-- synthesizeResponses of lib/ai/synthesis.ts, parametrized by the
network oracles.  The alignment computation can throw (only through
calculateJaccardSimilarity, on an empty response list); the throw
propagates to the caller as none. -/
def synthesizeResponses (o : Oracles) (responses : List ModelResponse) :
    Option ConsensusAnalysis :=
  match calculateAlignment o responses with
  | none => none
  | some alignmentResult =>
    let divergences := findDivergences responses
    let unifiedResponse :=
      o.gpt4 responses (alignmentResult.semantic, alignmentResult.surface,
        alignmentResult.overallAlignment)
    some
      { unifiedResponse := unifiedResponse
        alignment := alignmentResult
        alignedPoints := alignmentResult.alignedPoints
        divergentSections := divergences
        originalResponses := responses }

/-- synthesizeWithErrorHandling of lib/ai/synthesis.ts.  An empty list
throws inside the try block and is caught by the surrounding catch,
which returns the fallback; a singleton returns the shortcut analysis;
otherwise synthesizeResponses runs, its throw caught by the same
catch. -/
def synthesizeWithErrorHandling (o : Oracles) (responses : List ModelResponse) :
    ConsensusAnalysis :=
  match responses with
  | [] => errorFallbackAnalysis []
  | [r] =>
    { unifiedResponse := r.content
      alignment :=
        { semantic := 1
          surface := 1
          gemini := .high
          chatgpt := .high
          claude := .high
          overallAlignment := .high
          description := "Single model response"
          methodology := "semantic-similarity-v2"
          alignedPoints := [singleModelPoint r] }
      alignedPoints := [singleModelPoint r]
      divergentSections := []
      originalResponses := [r] }
  | _ =>
    match synthesizeResponses o responses with
    | some analysis => analysis
    | none => errorFallbackAnalysis responses

/-! ### Result processing of the synthesize endpoint route

Promise.allSettled delivers one settled result per provider, in dispatch
order; fulfilled values are pushed as is, rejected reasons become
error-marked placeholder responses with responseTime 0. -/

/-- One settled provider call, as delivered by Promise.allSettled. -/
inductive SettledResult where
  | fulfilled (value : ModelResponse)
  | rejected (message : String)

/-- The results.forEach push loop of the route: each settled result paired
with its model name yields either the fulfilled response or the
placeholder. -/
def processSettledResults (results : List (String × SettledResult)) : List ModelResponse :=
  results.map (fun p =>
    match p.2 with
    | .fulfilled v => v
    | .rejected msg => { model := p.1, content := "Error: " ++ msg, responseTime := 0 })

/-- content.startsWith of the Error: marker. -/
def errorMarked (r : ModelResponse) : Bool :=
  leadsWith r.content.data "Error:".data

/-- responses.filter(r => !r.content.startsWith(...)). -/
def validResponsesOf (responses : List ModelResponse) : List ModelResponse :=
  responses.filter (fun r => !(errorMarked r))

/-- validResponses.length > 0 ? validResponses : responses. -/
def responsesToSynthesizeOf (responses : List ModelResponse) : List ModelResponse :=
  if (validResponsesOf responses).length > 0 then validResponsesOf responses else responses

/-- The analysis produced by the synthesize endpoint for one list of
settled provider results: process, filter, synthesize. -/
def postSynthesisAnalysis (o : Oracles) (results : List (String × SettledResult)) :
    ConsensusAnalysis :=
  synthesizeWithErrorHandling o (responsesToSynthesizeOf (processSettledResults results))

/-! ### The streaming loop of the streaming endpoint

The three provider calls are dispatched in parallel; each promise
resolves at its own completion time.  The loop
  for (const [index, promise] of modelPromises.entries()) { await promise; enqueue(...) }
awaits the promises in dispatch order: awaiting promise i returns at the
maximum of the current clock and the completion time of call i, and the
model_complete (or model_error) event for call i is enqueued at that
moment.  Events are therefore enqueued sequentially in dispatch order,
with nondecreasing emission clocks. -/

/-- The sequential-await loop: each call is a model name paired with its
completion time (ms); the result pairs each model with the clock value
at which its event is enqueued. -/
def runStreamLoop : ℕ → List (String × ℕ) → List (String × ℕ)
  | _, [] => []
  | clock, (m, t) :: rest =>
    let emitted := max clock t
    (m, emitted) :: runStreamLoop emitted rest

/-- The models in the order their model_complete events are put on the
stream. -/
def modelCompleteSequence (calls : List (String × ℕ)) : List String :=
  (runStreamLoop 0 calls).map (fun p => p.1)

/-- Insertion step of the sort by completion time. -/
def insertByCompletion (p : String × ℕ) : List (String × ℕ) → List (String × ℕ)
  | [] => [p]
  | q :: qs => if p.2 ≤ q.2 then p :: q :: qs else q :: insertByCompletion p qs

/-- Sort by completion time. -/
def sortByCompletion : List (String × ℕ) → List (String × ℕ)
  | [] => []
  | p :: ps => insertByCompletion p (sortByCompletion ps)

/-- The models in the order in which the provider calls actually finish. -/
def completionOrder (calls : List (String × ℕ)) : List String :=
  (sortByCompletion calls).map (fun p => p.1)

/-! ### Transient result storage (lib/result-storage.ts)

The storage Map is modelled as an association list with at most one
binding per key (Map.set replaces).  Date.now() values are natural
numbers of milliseconds; the per-entry ttl is ttlMinutes * 60 * 1000,
a rational because ttlMinutes may be fractional. -/

namespace ResultStorage

/-- One stored entry. -/
structure StoredResult where
  id : String
  result : ConsensusAnalysis
  timestamp : ℕ
  ttl : ℚ
deriving DecidableEq

/-- The backing Map. -/
abbrev Storage := List (String × StoredResult)

/-- generateId of lib/result-storage.ts: result_ then Date.now() then _
then the 9-character base-36 fraction of Math.random().  The random
suffix is a parameter: the source draws it from Math.random with no
uniqueness check. -/
def generateId (now : ℕ) (rand : String) : String :=
  "result_" ++ toString now ++ "_" ++ rand

/-- Map.prototype.get. -/
def slookup (id : String) : Storage → Option StoredResult
  | [] => none
  | (k, v) :: rest => if k = id then some v else slookup id rest

/-- Map.prototype.set: a single binding per key. -/
def mapSet (id : String) (v : StoredResult) (s : Storage) : Storage :=
  (id, v) :: s.filter (fun p => !(p.1 == id))

/-- Map.prototype.delete. -/
def mapDelete (id : String) (s : Storage) : Storage :=
  s.filter (fun p => !(p.1 == id))

/-- store of lib/result-storage.ts, returning the fresh id and the new
storage state. -/
def store (s : Storage) (result : ConsensusAnalysis) (ttlMinutes : ℚ) (now : ℕ)
    (rand : String) : String × Storage :=
  let id := generateId now rand
  let ttl := ttlMinutes * 60 * 1000
  (id, mapSet id { id := id, result := result, timestamp := now, ttl := ttl } s)

/-- retrieve of lib/result-storage.ts: miss on unknown id; on a hit, the
read-time expiry check Date.now() - timestamp > ttl deletes the entry
and reports a miss; otherwise the stored result is returned unchanged. -/
def retrieve (s : Storage) (id : String) (now : ℕ) : Option ConsensusAnalysis × Storage :=
  match slookup id s with
  | none => (none, s)
  | some stored =>
    if (now : ℚ) - (stored.timestamp : ℚ) > stored.ttl then (none, mapDelete id s)
    else (some stored.result, s)

/-- cleanup of lib/result-storage.ts: the periodic sweep deletes every
entry whose TTL has elapsed at sweep time. -/
def cleanup (s : Storage) (now : ℕ) : Storage :=
  s.filter (fun p => !(decide ((now : ℚ) - (p.2.timestamp : ℚ) > p.2.ttl)))

end ResultStorage

/-! ### Shared concrete inputs -/

/-- A constant pair of network oracles for concrete evaluations. -/
def constOracles : Oracles :=
  { semanticSim := fun _ => 0.5, gpt4 := fun _ _ => "synthesized" }

/-- A successful gemini response. -/
def geminiSample : ModelResponse :=
  { model := "gemini", content := "Paris is the capital city of France", responseTime := 1500 }

/-- A successful openai response. -/
def openaiSample : ModelResponse :=
  { model := "openai", content := "The capital city of France is Paris", responseTime := 2000 }

/-- The placeholder the route builds for a rejected claude call. -/
def claudePlaceholder : ModelResponse :=
  { model := "claude", content := "Error: claude API call failed", responseTime := 0 }

/-- Settled results of a run where gemini and openai succeed and claude
fails. -/
def mixedSettledResults : List (String × SettledResult) :=
  [("gemini", .fulfilled geminiSample),
   ("openai", .fulfilled openaiSample),
   ("claude", .rejected "claude API call failed")]

/-- A concrete analysis value for storage scenarios. -/
def sampleAnalysis : ConsensusAnalysis :=
  synthesizeWithErrorHandling constOracles [geminiSample]

/-! ## Theorems -/

/-- C1: the spec demands that model_complete events be emitted in
completion order.  The source loop awaits the three promises in
dispatch order, so with completion times gemini=10, openai=50, claude=5
the events go out as gemini, openai, claude — dispatch order — while
completion order is claude, gemini, openai; the claude event is even
held back until the clock reaches 50.  This contradicts the claim and
the comment of the loop itself (stream results as they complete). -/
theorem c1_streaming_emits_in_dispatch_order :
    modelCompleteSequence [("gemini", 10), ("openai", 50), ("claude", 5)] =
      ["gemini", "openai", "claude"] ∧
    completionOrder [("gemini", 10), ("openai", 50), ("claude", 5)] =
      ["claude", "gemini", "openai"] ∧
    (runStreamLoop 0 [("gemini", 10), ("openai", 50), ("claude", 5)]).map (fun p => p.2) =
      [10, 50, 50] ∧
    modelCompleteSequence [("gemini", 10), ("openai", 50), ("claude", 5)] ≠
      completionOrder [("gemini", 10), ("openai", 50), ("claude", 5)] := by
  decide

/-- C3: on a singleton response list, synthesizeWithErrorHandling returns
the content verbatim with semantic = surface = 1, and the result does
not depend on the network oracles (no similarity, alignment or
LLM-synthesis computation is consulted). -/
theorem c3_singleton_shortcut (o o2 : Oracles) (r : ModelResponse) :
    (synthesizeWithErrorHandling o [r]).unifiedResponse = r.content ∧
    (synthesizeWithErrorHandling o [r]).alignment.semantic = 1 ∧
    (synthesizeWithErrorHandling o [r]).alignment.surface = 1 ∧
    synthesizeWithErrorHandling o [r] = synthesizeWithErrorHandling o2 [r] :=
  ⟨rfl, rfl, rfl, rfl⟩

/-- C9 counterexample: an id is a pure function of the millisecond tick
and the Math.random draw, with no uniqueness counter, so two
same-millisecond calls whose random draws coincide receive the same id;
the claim that every two calls return distinct ids is false. -/
theorem c9_same_tick_same_draw_collide :
    ResultStorage.generateId 1700000000000 "k3j9x2m1q" =
      ResultStorage.generateId 1700000000000 "k3j9x2m1q" ∧
    (ResultStorage.store [] sampleAnalysis 30 1700000000000 "k3j9x2m1q").1 =
      (ResultStorage.store [] sampleAnalysis 30 1700000000000 "k3j9x2m1q").1 :=
  ⟨rfl, rfl⟩

/-- C9 amended: two store calls in the same millisecond return distinct
ids exactly when their Math.random suffixes differ. -/
theorem c9_distinct_iff_draws_differ (t : ℕ) (r1 r2 : String) :
    ResultStorage.generateId t r1 = ResultStorage.generateId t r2 ↔ r1 = r2 := by
  constructor
  · intro h
    have hd := congrArg String.data h
    simp only [ResultStorage.generateId, String.data_append] at hd
    have hc := List.append_cancel_left hd
    cases r1; cases r2; exact congrArg String.mk hc
  · intro h; rw [h]

/-- C10: calculateJaccardSimilarity throws on the empty text list (the
spread of the undefined wordSets[0]), modelled as none, and returns a
number on every non-empty list. -/
theorem c10_jaccard_total_only_on_nonempty :
    calculateJaccardSimilarity [] = none ∧
    ∀ (t : String) (ts : List String), ∃ q, calculateJaccardSimilarity (t :: ts) = some q := by
  refine ⟨rfl, fun t ts => ?_⟩
  simp only [calculateJaccardSimilarity, List.map_cons]
  split
  · exact ⟨_, rfl⟩
  · exact ⟨_, rfl⟩

/-- C7: raising the semantic score while holding the surface score fixed
never lowers the band of getAlignmentLevel in the ordering
low < moderate < high. -/
theorem c7_band_monotone_in_semantic (surface s1 s2 : ℚ) (h : s1 ≤ s2) :
    (getAlignmentLevel s1 surface).rank ≤ (getAlignmentLevel s2 surface).rank := by
  have hc : s1 * 0.7 + surface * 0.3 ≤ s2 * 0.7 + surface * 0.3 := by nlinarith
  simp only [getAlignmentLevel]
  split_ifs <;> simp_all [Level.rank] <;> linarith

/-- C7 witness at surface = 0, s1 = 0, s2 = 1. -/
theorem c7_band_monotone_in_semantic_witness :
    (0 : ℚ) ≤ 1 ∧
      (getAlignmentLevel 0 0).rank ≤ (getAlignmentLevel 1 0).rank :=
  ⟨by norm_num, c7_band_monotone_in_semantic 0 0 1 (by norm_num)⟩

/-- C6: the aligned-points list of calculateAlignment is non-empty exactly
when semantic > 0.8 or (semantic > 0.6 and surface > 0.2); the
strong-agreement point is present exactly when semantic > 0.8, the
terminology point exactly when semantic > 0.6 and surface > 0.2, and at
semantic = 0.9, surface = 0.3 both are present together. -/
theorem c6_aligned_points_thresholds (models : List String) (semantic surface : ℚ) :
    (alignedPointsFor models semantic surface ≠ [] ↔
      (semantic > 0.8 ∨ (semantic > 0.6 ∧ surface > 0.2))) ∧
    (strongAgreementPoint models semantic ∈ alignedPointsFor models semantic surface ↔
      semantic > 0.8) ∧
    (terminologyPoint models semantic surface ∈ alignedPointsFor models semantic surface ↔
      (semantic > 0.6 ∧ surface > 0.2)) ∧
    alignedPointsFor models 0.9 0.3 =
      [strongAgreementPoint models 0.9, terminologyPoint models 0.9 0.3] := by
  have hne : strongAgreementPoint models semantic ≠ terminologyPoint models semantic surface := by
    intro h
    have hc := congrArg AlignedPoint.content h
    simp only [strongAgreementPoint, terminologyPoint] at hc
    exact absurd hc (by decide)
  have hne2 : terminologyPoint models semantic surface ≠ strongAgreementPoint models semantic :=
    fun h => hne h.symm
  refine ⟨?_, ?_, ?_, ?_⟩
  · by_cases h1 : semantic > 0.8 <;> by_cases h2 : semantic > 0.6 ∧ surface > 0.2 <;>
      simp [alignedPointsFor, h1, h2]
  · by_cases h1 : semantic > 0.8 <;> by_cases h2 : semantic > 0.6 ∧ surface > 0.2 <;>
      simp [alignedPointsFor, h1, h2, hne]
  · by_cases h1 : semantic > 0.8 <;> by_cases h2 : semantic > 0.6 ∧ surface > 0.2 <;>
      simp [alignedPointsFor, h1, h2, hne2]
  · rw [alignedPointsFor, if_pos (by norm_num), if_pos (by norm_num)]
    rfl

/-! ### Jaccard lemmas and C5 -/

theorem unionOfSets_nil : unionOfSets [] = ∅ := rfl

theorem unionOfSets_cons (s : Finset String) (l : List (Finset String)) :
    unionOfSets (s :: l) = s ∪ unionOfSets l := rfl

theorem mem_unionOfSets {x : String} {l : List (Finset String)} :
    x ∈ unionOfSets l ↔ ∃ s ∈ l, x ∈ s := by
  induction l with
  | nil => simp [unionOfSets_nil]
  | cons s t ih => simp [unionOfSets_cons, ih]

theorem unionOfSets_const (A : Finset String) (l : List (Finset String)) (hne : l ≠ [])
    (hall : ∀ s ∈ l, s = A) : unionOfSets l = A := by
  induction l with
  | nil => exact absurd rfl hne
  | cons s t ih =>
    rw [unionOfSets_cons, hall s (List.mem_cons_self s t)]
    cases t with
    | nil => simp [unionOfSets_nil]
    | cons s2 t2 =>
      rw [ih (by simp) (fun x hx => hall x (List.mem_cons_of_mem s hx))]
      exact Finset.union_self A

/-- The one-step unfolding of calculateJaccardSimilarity on a non-empty
list. -/
theorem jaccard_cons (t : String) (ts : List String) :
    calculateJaccardSimilarity (t :: ts) =
      (if 0 < (unionOfSets (wordSetOf t :: ts.map wordSetOf)).card then
        some ((((wordSetOf t).filter
            (fun w => ∀ s ∈ wordSetOf t :: ts.map wordSetOf, w ∈ s)).card : ℚ) /
          ((unionOfSets (wordSetOf t :: ts.map wordSetOf)).card : ℚ))
      else some 0) := rfl

/-- C5 counterexample: the texts "hi" and "hi" are identical, but every
token is filtered out (length at most 2), the union is empty, and the
result is 0, not 1. -/
theorem c5_identical_short_texts_yield_zero :
    (∀ a ∈ ["hi", "hi"], ∀ b ∈ ["hi", "hi"], a = b) ∧
    calculateJaccardSimilarity ["hi", "hi"] = some 0 ∧
    calculateJaccardSimilarity ["hi", "hi"] ≠ some 1 := by
  refine ⟨by decide, rfl, ?_⟩
  intro hcontra
  rw [show calculateJaccardSimilarity ["hi", "hi"] = some 0 from rfl] at hcontra
  exact absurd (Option.some.inj hcontra) (by norm_num)

/-- C5 amended: on every non-empty text list the Jaccard similarity is a
rational in [0, 1]; it is 1 when all texts are identical and at least
one filtered token survives (identical texts whose filtered vocabulary
is empty instead fall under the empty-union clause); it is 0 when at
least two texts have pairwise disjoint filtered vocabularies; and it is
0 when the union of the filtered word sets is empty. -/
theorem c5_jaccard_bounds_amended (texts : List String) (h : texts ≠ []) :
    ∃ q, calculateJaccardSimilarity texts = some q ∧
      0 ≤ q ∧ q ≤ 1 ∧
      ((∀ a ∈ texts, ∀ b ∈ texts, a = b) →
        (∃ t ∈ texts, (wordSetOf t).Nonempty) → q = 1) ∧
      (2 ≤ texts.length →
        texts.Pairwise (fun a b => Disjoint (wordSetOf a) (wordSetOf b)) → q = 0) ∧
      (unionOfSets (texts.map wordSetOf) = ∅ → q = 0) := by
  obtain ⟨t, ts, rfl⟩ : ∃ t ts, texts = t :: ts := by
    cases texts with
    | nil => exact absurd rfl h
    | cons a b => exact ⟨a, b, rfl⟩
  simp only [List.map_cons]
  rw [jaccard_cons]
  set sets := wordSetOf t :: ts.map wordSetOf with hsets
  set inter := (wordSetOf t).filter (fun w => ∀ s ∈ sets, w ∈ s) with hinter
  set union := unionOfSets sets with hunion
  have hsub : inter ⊆ union := by
    intro w hw
    rw [hinter, Finset.mem_filter] at hw
    rw [hunion, mem_unionOfSets]
    exact ⟨wordSetOf t, by rw [hsets]; exact List.mem_cons_self _ _, hw.1⟩
  by_cases hcard : 0 < union.card
  · rw [if_pos hcard]
    have hle : inter.card ≤ union.card := Finset.card_le_card hsub
    refine ⟨_, rfl, ?_, ?_, ?_, ?_, ?_⟩
    · positivity
    · rw [div_le_one (by exact_mod_cast hcard)]
      exact_mod_cast hle
    · intro hid _
      have hall : ∀ s ∈ sets, s = wordSetOf t := by
        intro s hs
        rw [hsets] at hs
        rcases List.mem_cons.mp hs with rfl | hs2
        · rfl
        · obtain ⟨b, hb, rfl⟩ := List.mem_map.mp hs2
          rw [hid b (List.mem_cons_of_mem t hb) t (List.mem_cons_self t ts)]
      have hu : union = wordSetOf t := by
        rw [hunion]
        exact unionOfSets_const _ sets (by rw [hsets]; simp) hall
      have hi : inter = wordSetOf t := by
        rw [hinter]
        apply Finset.filter_true_of_mem
        intro w hw s hs
        rw [hall s hs]
        exact hw
      rw [hi, hu]
      have hcne : ((wordSetOf t).card : ℚ) ≠ 0 := by
        rw [hu] at hcard
        exact_mod_cast Nat.pos_iff_ne_zero.mp hcard
      exact div_self hcne
    · intro hlen hdisj
      obtain ⟨t2, ts2, rfl⟩ : ∃ t2 ts2, ts = t2 :: ts2 := by
        cases ts with
        | nil => simp at hlen
        | cons a b => exact ⟨a, b, rfl⟩
      have hd : Disjoint (wordSetOf t) (wordSetOf t2) :=
        (List.pairwise_cons.mp hdisj).1 t2 (List.mem_cons_self t2 ts2)
      have hi : inter = ∅ := by
        rw [hinter]
        rw [Finset.filter_eq_empty_iff]
        intro w hw hall2
        have hw2 : w ∈ wordSetOf t2 := hall2 (wordSetOf t2)
          (by rw [hsets]; simp)
        exact (Finset.disjoint_left.mp hd) hw hw2
      rw [hi]
      simp
    · intro hu0
      rw [hu0] at hcard
      simp at hcard
  · rw [if_neg hcard]
    refine ⟨0, rfl, le_refl 0, by norm_num, ?_, fun _ _ => rfl, fun _ => rfl⟩
    intro _ hvocab
    exfalso
    obtain ⟨u, hu, x, hx⟩ := hvocab
    have hx2 : x ∈ union := by
      rw [hunion, mem_unionOfSets]
      refine ⟨wordSetOf u, ?_, hx⟩
      rw [hsets]
      rcases List.mem_cons.mp hu with rfl | hu2
      · exact List.mem_cons_self _ _
      · exact List.mem_cons_of_mem _ (List.mem_map_of_mem _ hu2)
    exact hcard (Finset.card_pos.mpr ⟨x, hx2⟩)

/-- C5 witness at the texts "cat dog" and "cat dog". -/
theorem c5_jaccard_bounds_amended_witness :
    (["cat dog", "cat dog"] : List String) ≠ [] ∧
    ∃ q, calculateJaccardSimilarity ["cat dog", "cat dog"] = some q ∧
      0 ≤ q ∧ q ≤ 1 ∧
      ((∀ a ∈ ["cat dog", "cat dog"], ∀ b ∈ ["cat dog", "cat dog"], a = b) →
        (∃ t ∈ ["cat dog", "cat dog"], (wordSetOf t).Nonempty) → q = 1) ∧
      (2 ≤ (["cat dog", "cat dog"] : List String).length →
        (["cat dog", "cat dog"] : List String).Pairwise
          (fun a b => Disjoint (wordSetOf a) (wordSetOf b)) → q = 0) ∧
      (unionOfSets ((["cat dog", "cat dog"] : List String).map wordSetOf) = ∅ → q = 0) :=
  ⟨by decide, c5_jaccard_bounds_amended ["cat dog", "cat dog"] (by decide)⟩

/-! ### Storage lemmas and C4 -/

namespace ResultStorage

theorem slookup_cons_self (id : String) (v : StoredResult) (l : Storage) :
    slookup id ((id, v) :: l) = some v := by
  simp [slookup]

theorem slookup_eq_none (id : String) (l : Storage) (h : ∀ p ∈ l, p.1 ≠ id) :
    slookup id l = none := by
  induction l with
  | nil => rfl
  | cons p rest ih =>
    obtain ⟨k, v⟩ := p
    rw [slookup, if_neg (h (k, v) (List.mem_cons_self _ _))]
    exact ih (fun q hq => h q (List.mem_cons_of_mem _ hq))

theorem mem_filter_key_ne (id : String) (l : Storage) :
    ∀ p ∈ l.filter (fun p => !(p.1 == id)), p.1 ≠ id := by
  intro p hp
  have h2 := (List.mem_filter.mp hp).2
  simpa using h2

theorem retrieve_found (l : Storage) (id : String) (v : StoredResult) (now : ℕ)
    (hl : slookup id l = some v) :
    retrieve l id now =
      if (now : ℚ) - (v.timestamp : ℚ) > v.ttl then (none, mapDelete id l)
      else (some v.result, l) := by
  simp only [retrieve, hl]

theorem retrieve_missing (l : Storage) (id : String) (now : ℕ)
    (hl : slookup id l = none) :
    retrieve l id now = (none, l) := by
  simp only [retrieve, hl]

/-- After a sweep at any time, a retrieval of an entry that is expired at
read time still misses, whether the sweep removed the entry or not. -/
theorem retrieve_after_cleanup_none (rest : Storage) (id : String) (e : StoredResult)
    (nowSweep nowRead : ℕ)
    (hkeys : ∀ p ∈ rest, p.1 ≠ id)
    (hexp : (nowRead : ℚ) - (e.timestamp : ℚ) > e.ttl) :
    (retrieve (cleanup ((id, e) :: rest) nowSweep) id nowRead).1 = none := by
  rw [cleanup, List.filter_cons]
  by_cases hkeep :
      ((!(decide ((nowSweep : ℚ) - (e.timestamp : ℚ) > e.ttl))) = true)
  · rw [if_pos hkeep, retrieve_found _ _ _ _ (slookup_cons_self id e _), if_pos hexp]
  · rw [if_neg hkeep,
      retrieve_missing _ _ _
        (slookup_eq_none id _ (fun p hp => hkeys p (List.mem_of_mem_filter hp)))]

/-- C4: retrieving a stored result strictly after its TTL window yields
none, both directly (read-time check) and after a sweep at any time;
retrieving within the TTL window yields exactly the stored object. -/
theorem c4_ttl_read_and_sweep (s : Storage) (result : ConsensusAnalysis)
    (ttlMinutes : ℚ) (nowStore : ℕ) (rand : String) (nowRead : ℕ) :
    ((nowRead : ℚ) - (nowStore : ℚ) > ttlMinutes * 60 * 1000 →
      (retrieve (store s result ttlMinutes nowStore rand).2
          (store s result ttlMinutes nowStore rand).1 nowRead).1 = none ∧
      ∀ nowSweep : ℕ,
        (retrieve (cleanup (store s result ttlMinutes nowStore rand).2 nowSweep)
            (store s result ttlMinutes nowStore rand).1 nowRead).1 = none) ∧
    ((nowRead : ℚ) - (nowStore : ℚ) ≤ ttlMinutes * 60 * 1000 →
      (retrieve (store s result ttlMinutes nowStore rand).2
          (store s result ttlMinutes nowStore rand).1 nowRead).1 = some result) := by
  have hlook : slookup (store s result ttlMinutes nowStore rand).1
      (store s result ttlMinutes nowStore rand).2 =
      some { id := generateId nowStore rand, result := result, timestamp := nowStore,
             ttl := ttlMinutes * 60 * 1000 } :=
    slookup_cons_self _ _ _
  refine ⟨fun hexp => ⟨?_, fun nowSweep => ?_⟩, fun hle => ?_⟩
  · rw [retrieve_found _ _ _ _ hlook, if_pos hexp]
  · exact retrieve_after_cleanup_none
      (s.filter (fun p => !(p.1 == generateId nowStore rand)))
      (generateId nowStore rand)
      { id := generateId nowStore rand, result := result, timestamp := nowStore,
        ttl := ttlMinutes * 60 * 1000 }
      nowSweep nowRead (mem_filter_key_ne _ s) hexp
  · rw [retrieve_found _ _ _ _ hlook, if_neg (not_lt.mpr hle)]

/-- C4 witness: TTL 0.001 minutes (60 ms), stored at t = 0; a read at
t = 100 ms misses (also after a sweep, covered by the theorem), and an
immediate read at t = 0 returns the stored object. -/
theorem c4_ttl_read_and_sweep_witness :
    (((100 : ℕ) : ℚ) - ((0 : ℕ) : ℚ) > (1 / 1000 : ℚ) * 60 * 1000 ∧
      (retrieve (store [] sampleAnalysis (1 / 1000) 0 "k3j9x2m1q").2
          (store [] sampleAnalysis (1 / 1000) 0 "k3j9x2m1q").1 100).1 = none) ∧
    (((0 : ℕ) : ℚ) - ((0 : ℕ) : ℚ) ≤ (1 / 1000 : ℚ) * 60 * 1000 ∧
      (retrieve (store [] sampleAnalysis (1 / 1000) 0 "k3j9x2m1q").2
          (store [] sampleAnalysis (1 / 1000) 0 "k3j9x2m1q").1 0).1 = some sampleAnalysis) := by
  constructor
  · have h : ((100 : ℕ) : ℚ) - ((0 : ℕ) : ℚ) > (1 / 1000 : ℚ) * 60 * 1000 := by norm_num
    exact ⟨h, ((c4_ttl_read_and_sweep [] sampleAnalysis (1 / 1000) 0 "k3j9x2m1q" 100).1 h).1⟩
  · have h : ((0 : ℕ) : ℚ) - ((0 : ℕ) : ℚ) ≤ (1 / 1000 : ℚ) * 60 * 1000 := by norm_num
    exact ⟨h, (c4_ttl_read_and_sweep [] sampleAnalysis (1 / 1000) 0 "k3j9x2m1q" 0).2 h⟩

end ResultStorage

/-! ### C2: the placeholder is dropped from originalResponses -/

/-- C2: with gemini and openai fulfilled and claude rejected, the route
builds three responses including the claude placeholder, but filters
the placeholder out before synthesis, and the analysis echoes the
filtered list: originalResponses holds only the two valid responses and
not the placeholder, contradicting the claim that the placeholder still
occupies a slot. -/
theorem c2_placeholder_dropped_from_original_responses :
    processSettledResults mixedSettledResults =
      [geminiSample, openaiSample, claudePlaceholder] ∧
    (postSynthesisAnalysis constOracles mixedSettledResults).originalResponses =
      [geminiSample, openaiSample] ∧
    claudePlaceholder ∉
      (postSynthesisAnalysis constOracles mixedSettledResults).originalResponses := by
  have h2 : (postSynthesisAnalysis constOracles mixedSettledResults).originalResponses =
      [geminiSample, openaiSample] := rfl
  refine ⟨rfl, h2, ?_⟩
  rw [h2]
  decide

/-! ### Cosine lemmas and C8 -/

theorem sumsq_eq_range (l : List ℝ) :
    sumsq l = ∑ i ∈ Finset.range l.length, (l.getD i 0) ^ 2 := by
  induction l with
  | nil => simp [sumsq]
  | cons x xs ih =>
    simp only [sumsq, List.map_cons, List.sum_cons] at ih ⊢
    rw [ih, List.length_cons, Finset.sum_range_succ']
    simp only [List.getD_cons_succ, List.getD_cons_zero]
    ring

theorem dotList_eq_range (a : List ℝ) : ∀ b : List ℝ, a.length = b.length →
    dotList a b = ∑ i ∈ Finset.range a.length, a.getD i 0 * b.getD i 0 := by
  induction a with
  | nil =>
    intro b _
    simp [dotList]
  | cons x xs ih =>
    intro b h
    cases b with
    | nil => simp at h
    | cons y ys =>
      have hlen : xs.length = ys.length := by simpa using h
      show x * y + dotList xs ys = _
      rw [ih ys hlen, List.length_cons, Finset.sum_range_succ']
      simp only [List.getD_cons_succ, List.getD_cons_zero]
      ring

theorem dotList_le_sqrt_mul (a b : List ℝ) (h : a.length = b.length) :
    dotList a b ≤ Real.sqrt (sumsq a) * Real.sqrt (sumsq b) := by
  rw [dotList_eq_range a b h, sumsq_eq_range a, sumsq_eq_range b, ← h]
  exact Real.sum_mul_le_sqrt_mul_sqrt _ _ _

theorem neg_dotList_le_sqrt_mul (a b : List ℝ) (h : a.length = b.length) :
    -(dotList a b) ≤ Real.sqrt (sumsq a) * Real.sqrt (sumsq b) := by
  have hcs := Real.sum_mul_le_sqrt_mul_sqrt (Finset.range a.length)
    (fun i => a.getD i 0) (fun i => -(b.getD i 0))
  simp only [mul_neg, Finset.sum_neg_distrib, neg_sq] at hcs
  rw [dotList_eq_range a b h, sumsq_eq_range a, sumsq_eq_range b, ← h]
  exact hcs

/-- C8: on equal-length vectors, cosineSimilarity returns an ok value in
[-1, 1]; with a zero-norm vector it returns ok 0 without raising; and
only a length mismatch produces the error. -/
theorem c8_cosine_bounds (vecA vecB : List ℝ) :
    (vecA.length = vecB.length →
      (∃ r, cosineSimilarity vecA vecB = .ok r ∧ -1 ≤ r ∧ r ≤ 1) ∧
      (Real.sqrt (sumsq vecA) = 0 ∨ Real.sqrt (sumsq vecB) = 0 →
        cosineSimilarity vecA vecB = .ok 0)) ∧
    (vecA.length ≠ vecB.length →
      cosineSimilarity vecA vecB = .error "Vectors must have the same length") := by
  constructor
  · intro h
    have hne : ¬(vecA.length ≠ vecB.length) := fun hn => hn h
    constructor
    · by_cases hz : Real.sqrt (sumsq vecA) = 0 ∨ Real.sqrt (sumsq vecB) = 0
      · refine ⟨0, ?_, by norm_num, by norm_num⟩
        simp only [cosineSimilarity]
        rw [if_neg hne, if_pos hz]
      · obtain ⟨h1, h2⟩ := not_or.mp hz
        have ha : 0 < Real.sqrt (sumsq vecA) :=
          (Real.sqrt_nonneg _).lt_of_ne (Ne.symm h1)
        have hb : 0 < Real.sqrt (sumsq vecB) :=
          (Real.sqrt_nonneg _).lt_of_ne (Ne.symm h2)
        have hpos : 0 < Real.sqrt (sumsq vecA) * Real.sqrt (sumsq vecB) := mul_pos ha hb
        refine ⟨dotList vecA vecB / (Real.sqrt (sumsq vecA) * Real.sqrt (sumsq vecB)),
          ?_, ?_, ?_⟩
        · simp only [cosineSimilarity]
          rw [if_neg hne, if_neg hz]
        · have hlow := neg_dotList_le_sqrt_mul vecA vecB h
          rw [le_div_iff₀ hpos]
          linarith
        · rw [div_le_one hpos]
          exact dotList_le_sqrt_mul vecA vecB h
    · intro hz
      simp only [cosineSimilarity]
      rw [if_neg hne, if_pos hz]
  · intro h
    simp only [cosineSimilarity]
    rw [if_pos h]

/-- C8 witness: the bounds at the vectors (1, 0) and (0, 1), and the
error at the length mismatch (1) versus (). -/
theorem c8_cosine_bounds_witness :
    (([1, 0] : List ℝ).length = ([0, 1] : List ℝ).length ∧
      ∃ r, cosineSimilarity [1, 0] [0, 1] = .ok r ∧ -1 ≤ r ∧ r ≤ 1) ∧
    (([1] : List ℝ).length ≠ ([] : List ℝ).length ∧
      cosineSimilarity [1] [] = .error "Vectors must have the same length") :=
  ⟨⟨rfl, ((c8_cosine_bounds [1, 0] [0, 1]).1 rfl).1⟩,
   ⟨by decide, (c8_cosine_bounds [1] []).2 (by decide)⟩⟩

end Voiltail
